import Mathlib

/-!
Shallow embedding of the PTEO-Shift-Report snapshot-diff analysis engine
(`src/streamlit_app.py`, class `LotTrackingDashboard`) and of the attendance
validation flow (`src/attendance_console.py` and `show_attendance_form`).

Tabular snapshots (pandas DataFrames built from spreadsheet records) are
modelled as an explicit column list plus a list of rows; a row is an
association list from column names to cells.  A cell is either null (pandas
NaN), a text value, or a numeric value; numeric cells and numeric-string
parsing are restricted to integers, which covers every quantity the claims
exercise.  Python float formatting (`f"{x:.1f}"`) is modelled by exact
rational arithmetic with round-half-to-even, realised on naturals.
-/

namespace PTEO

instance instDecEqExcept {ε α : Type} [DecidableEq ε] [DecidableEq α] :
    DecidableEq (Except ε α)
  | Except.ok a, Except.ok b =>
    if h : a = b then isTrue (by rw [h])
    else isFalse (by intro hh; cases hh; exact h rfl)
  | Except.ok _, Except.error _ => isFalse (by intro h; cases h)
  | Except.error _, Except.ok _ => isFalse (by intro h; cases h)
  | Except.error e, Except.error f =>
    if h : e = f then isTrue (by rw [h])
    else isFalse (by intro hh; cases hh; exact h rfl)

/-- A spreadsheet cell: pandas NaN, a string, or an (integer) number. -/
inductive Cell where
  | null : Cell
  | str (s : String) : Cell
  | num (n : Int) : Cell
deriving DecidableEq, Repr

/-- A row: association list from column name to cell.  A column of the
DataFrame that is missing from the row's list reads as null (NaN). -/
abbrev Row := List (String × Cell)

/-- Read a row's cell in a named column (NaN when not recorded). -/
def rowGet (r : Row) (c : String) : Cell :=
  match r.find? (fun p => p.1 = c) with
  | some p => p.2
  | none => Cell.null

/-- A DataFrame: its columns and its rows. -/
structure DF where
  cols : List String
  rows : List Row
deriving DecidableEq, Repr

/-- Does `pat` occur at the head of `s`? -/
def charsMatchAt : List Char → List Char → Bool
  | _, [] => true
  | [], _ :: _ => false
  | c :: cs, p :: ps => c = p && charsMatchAt cs ps

/-- Does `pat` occur anywhere in `s`? -/
def charsOccur (s pat : List Char) : Bool :=
  charsMatchAt s pat ||
    match s with
    | [] => false
    | _ :: cs => charsOccur cs pat

/-- Case-insensitive substring test, modelling
`str.contains(pat, case=False)` for a literal pattern. -/
def containsCI (s pat : String) : Bool :=
  charsOccur (s.toList.map Char.toLower) (pat.toList.map Char.toLower)

/-- `Series.str.contains(pat, case=False, na=False)` at one cell: only a
string cell can match; NaN and numeric cells yield False. -/
def cellContainsCI (c : Cell) (pat : String) : Bool :=
  match c with
  | Cell.str s => containsCI s pat
  | _ => false

/-- `astype(str)` of one cell: NaN prints as "nan". -/
def cellStrRepr : Cell → String
  | Cell.null => "nan"
  | Cell.str s => s
  | Cell.num n => toString n

/-- Summary-row exclusion predicate of `filter_critical_lots`:
`df['Operation'].astype(str).str.contains('Total|No filters applied', case=False)`. -/
def opExclude (r : Row) : Bool :=
  containsCI (cellStrRepr (rowGet r "Operation")) "Total" ||
    containsCI (cellStrRepr (rowGet r "Operation")) "No filters applied"

/-- OTD-status criticality: `str.contains('NEAR DUE|EXPEDITE OVERDUE|OVERDUE',
case=False, na=False)` at one cell. -/
def otdMatch (r : Row) : Bool :=
  cellContainsCI (rowGet r "OTD STATUS") "NEAR DUE" ||
    cellContainsCI (rowGet r "OTD STATUS") "EXPEDITE OVERDUE" ||
    cellContainsCI (rowGet r "OTD STATUS") "OVERDUE"

/-- Split-low-yield category match: `str.contains('ENGR-SPLIT LOW YIELD',
case=False, na=False)` at one cell. -/
def catMatch (r : Row) : Bool :=
  cellContainsCI (rowGet r "CATEGORY") "ENGR-SPLIT LOW YIELD"

/-- The combined critical predicate of `filter_critical_lots`: OR of the
per-column filters, each contributing only when its column exists. -/
def criticalPred (cols : List String) (r : Row) : Bool :=
  (if "OTD STATUS" ∈ cols then otdMatch r else false) ||
    (if "CATEGORY" ∈ cols then catMatch r else false)

/-- `LotTrackingDashboard.filter_critical_lots`: drop summary rows by the
`Operation` column when present, then keep rows satisfying the OR of the
available critical filters; with no filter column available, return the
(summary-excluded) data unchanged.  An empty frame is returned as is. -/
def filter_critical_lots (df : DF) : DF :=
  if df.rows.length = 0 then df
  else
    let rows1 := if "Operation" ∈ df.cols then df.rows.filter (fun r => !opExclude r) else df.rows
    if "OTD STATUS" ∈ df.cols ∨ "CATEGORY" ∈ df.cols then
      ⟨df.cols, rows1.filter (criticalPred df.cols)⟩
    else
      ⟨df.cols, rows1⟩

/-- A row's `LOT NUMBER` cell. -/
def lotCell (r : Row) : Cell := rowGet r "LOT NUMBER"

/-- `set(df['LOT NUMBER'].dropna())`: the distinct non-null lot keys. -/
def lotKeys (df : DF) : Finset Cell :=
  ((df.rows.map lotCell).filter (fun c => c ≠ Cell.null)).toFinset

/-- Output of the delta analyzer: the two key sets, the two row buckets
drawn from the before snapshot, and their category sub-partitions. -/
structure DeltaResult where
  processedKeys : Finset Cell
  inProgressKeys : Finset Cell
  processedRows : List Row
  inProgressRows : List Row
  processedSplit : List Row
  processedRegular : List Row
  inProgressSplit : List Row
  inProgressRegular : List Row
deriving DecidableEq

/-- The two negative outcomes of `analyze_processed_lots`: a missing
snapshot, or a snapshot without the `LOT NUMBER` key column. -/
inductive AnalyzeError where
  | incompleteSnapshots : AnalyzeError
  | missingKeyColumn : AnalyzeError
deriving DecidableEq, Repr

/-- Category sub-partition of one bucket, from `analyze_processed_lots`:
when the bucket is nonempty and `CATEGORY` exists, split by `catMatch` and
its complement; otherwise the split part is empty and the regular part is
the bucket (an empty DataFrame when the bucket is empty). -/
def splitBuckets (cols : List String) (bucket : List Row) : List Row × List Row :=
  if 0 < bucket.length ∧ "CATEGORY" ∈ cols then
    (bucket.filter catMatch, bucket.filter (fun r => !catMatch r))
  else
    ([], if 0 < bucket.length then bucket else [])

/-- The successful delta computation of `analyze_processed_lots` over two
snapshots that both carry `LOT NUMBER`. -/
def mkDelta (b a : DF) : DeltaResult :=
  let B := lotKeys b
  let A := lotKeys a
  let processedKeys := B \ A
  let inProgressKeys := B ∩ A
  let processedRows := b.rows.filter (fun r => lotCell r ∈ processedKeys)
  let inProgressRows := b.rows.filter (fun r => lotCell r ∈ inProgressKeys)
  let p := splitBuckets b.cols processedRows
  let q := splitBuckets b.cols inProgressRows
  ⟨processedKeys, inProgressKeys, processedRows, inProgressRows, p.1, p.2, q.1, q.2⟩

/-- `LotTrackingDashboard.analyze_processed_lots` as a function of the two
stored snapshots: report `IncompleteSnapshots` when either is absent,
`MissingKeyColumn` when either lacks `LOT NUMBER`, else the delta result. -/
def analyze_processed_lots (before after : Option DF) : Except AnalyzeError DeltaResult :=
  match before, after with
  | some b, some a =>
    if "LOT NUMBER" ∈ b.cols ∧ "LOT NUMBER" ∈ a.cols then
      Except.ok (mkDelta b a)
    else
      Except.error AnalyzeError.missingKeyColumn
  | _, _ => Except.error AnalyzeError.incompleteSnapshots

/-- The dashboard's mutable analysis state: the two captured snapshots and
the last computed delta buckets. -/
structure DashState where
  before_shift_data : Option DF
  after_shift_data : Option DF
  result : Option DeltaResult
deriving DecidableEq

/-- Running `analyze_processed_lots` against the state: on success the
buckets are replaced, on either failure the method returns early and the
state is left untouched. -/
def analyzeStep (s : DashState) : DashState :=
  match analyze_processed_lots s.before_shift_data s.after_shift_data with
  | Except.ok r => { s with result := some r }
  | Except.error _ => s

/-- `capture_before_shift`: a successful read is filtered by
`filter_critical_lots` and assigned over any previous before snapshot; a
failed read (None) leaves the state unchanged. -/
def capture_before_shift (data : Option DF) (s : DashState) : DashState :=
  match data with
  | some d => { s with before_shift_data := some (filter_critical_lots d) }
  | none => s

/-- Parse a decimal digit string to a natural number (empty string fails). -/
def digitsToNat (cs : List Char) : Option Nat :=
  if cs ≠ [] ∧ cs.all Char.isDigit then
    some (cs.foldl (fun a c => a * 10 + (c.toNat - 48)) 0)
  else
    none

/-- `pd.to_numeric(•, errors='coerce')` at one cell, restricted to integer
literals: numbers pass through, integer strings parse, everything else
(NaN included) coerces to NaN. -/
def toNumeric : Cell → Option Int
  | Cell.num n => some n
  | Cell.str s =>
    match s.toList with
    | '-' :: rest => (digitsToNat rest).map (fun n => -(n : Int))
    | cs => (digitsToNat cs).map (fun n => (n : Int))
  | Cell.null => none

/-- `LotTrackingDashboard.safe_qty_sum`: 0 without a `QTY` column or rows,
else the nan-skipping sum of the numeric coercion of the column. -/
def safe_qty_sum (df : DF) : Int :=
  if "QTY" ∈ df.cols ∧ 0 < df.rows.length then
    (df.rows.filterMap (fun r => toNumeric (rowGet r "QTY"))).sum
  else
    0

/-- Round a ratio expressed in tenths, `n10 / d`, to the nearest integer
with ties to even: the model of IEEE/Python `round` at exact rationals. -/
def roundTenths (n10 d : Nat) : Nat :=
  let q := n10 / d
  let r := n10 % d
  if 2 * r < d then q
  else if d < 2 * r then q + 1
  else if q % 2 = 0 then q else q + 1

/-- The `Processing Rate (%)` string of `create_summary_table`:
`f"{(processed/total*100):.1f}%"` when `total > 0`, else the literal "0%".
The float format is modelled by exact rational rounding to one decimal. -/
def processingRateStr (processed total : Nat) : String :=
  if 0 < total then
    let t := roundTenths (processed * 1000) total
    toString (t / 10) ++ "." ++ toString (t % 10) ++ "%"
  else
    "0%"

/-- Row count of the stored before snapshot (`len(self.before_shift_data)`
with None counting as 0). -/
def totalRowsOf (s : DashState) : Nat :=
  match s.before_shift_data with
  | some d => d.rows.length
  | none => 0

/-- `LotTrackingDashboard.create_summary_table`: None until an analysis has
produced buckets, else the ordered (metric, value) pairs. -/
def create_summary_table (s : DashState) : Option (List (String × String)) :=
  match s.result with
  | none => none
  | some r =>
    let total := totalRowsOf s
    some [("Total Lots (Start of Shift)", toString total),
          ("Processed Regular Lots", toString r.processedRegular.length),
          ("Processed Split Low Yield Lots", toString r.processedSplit.length),
          ("In Progress Regular Lots", toString r.inProgressRegular.length),
          ("In Progress Split Low Yield Lots", toString r.inProgressSplit.length),
          ("Processing Rate (%)", processingRateStr r.processedRows.length total)]

/-- One appended attendance row: `[date, member, shift, status]`. -/
structure AttendanceRecord where
  date : String
  member : String
  shift : String
  status : String
deriving DecidableEq, Repr

/-- `record_attendance`: one record per member of
`set(present_members + absent_members)`, status "Present" exactly for the
present members.  (Python's set iteration order is unspecified; the
deduplicated concatenation order stands in for it.) -/
def record_attendance (date shift : String) (present absent : List String) :
    List AttendanceRecord :=
  ((present ++ absent).dedup).map
    (fun m => ⟨date, m, shift, if m ∈ present then "Present" else "Absent"⟩)

/-- The fixed team size of the attendance flow. -/
def FULL_TEAM_SIZE : Nat := 3

/-- The submit branch of `show_attendance_form`: with the team below full
strength, a selection of the wrong size is rejected with the correction
message and nothing is recorded; otherwise the present members are the team
minus the absentees and the attendance records are written. -/
def submit_attendance (teamSize numPresent : Nat) (team absentSel : List String)
    (date shift : String) : Except String (List AttendanceRecord) :=
  if numPresent < teamSize ∧ absentSel.length ≠ teamSize - numPresent then
    Except.error ("Please select exactly " ++ toString (teamSize - numPresent) ++
      " absent member(s). You selected " ++ toString absentSel.length ++ ".")
  else
    let present := team.filter (fun m => m ∉ absentSel)
    Except.ok (record_attendance date shift present absentSel)

/-- One iteration of the console absentee prompt
(`ConsoleAttendanceTracker.run`, step 3): too few or too many selections,
or an out-of-range member number, are rejected (the loop re-prompts);
exactly `expected` valid zero-based indices are accepted. -/
def console_validate (expected : Nat) (team : List String) (idxs : List Nat) :
    Option (List String) :=
  if idxs.length < expected then none
  else if expected < idxs.length then none
  else if idxs.all (fun i => i < team.length) then
    some (idxs.map (fun i => team.getD i ""))
  else none

/-- The console prompt loop over successive attempted inputs: the first
valid attempt is accepted, every invalid one only repeats the prompt. -/
def console_select_absent (expected : Nat) (team : List String) :
    List (List Nat) → Option (List String)
  | [] => none
  | attempt :: rest =>
    match console_validate expected team attempt with
    | some sel => some sel
    | none => console_select_absent expected team rest

/-- The "before" snapshot of the spec's worked scenario. -/
def specBefore : DF :=
  ⟨["LOT NUMBER", "CATEGORY"],
   [[("LOT NUMBER", Cell.str "A"), ("CATEGORY", Cell.str "ENGR-SPLIT LOW YIELD")],
    [("LOT NUMBER", Cell.str "B"), ("CATEGORY", Cell.str "NORMAL")],
    [("LOT NUMBER", Cell.str "C"), ("CATEGORY", Cell.str "NORMAL")]]⟩

/-- The "after" snapshot of the spec's worked scenario. -/
def specAfter : DF :=
  ⟨["LOT NUMBER", "CATEGORY"],
   [[("LOT NUMBER", Cell.str "B"), ("CATEGORY", Cell.str "NORMAL")]]⟩

/-! ### Helper lemmas -/

theorem mem_lotKeys {df : DF} {k : Cell} :
    k ∈ lotKeys df ↔ k ∈ df.rows.map lotCell ∧ k ≠ Cell.null := by
  simp [lotKeys, List.mem_filter]

theorem null_notMem_lotKeys (df : DF) : Cell.null ∉ lotKeys df := by
  simp [mem_lotKeys]

theorem lotCell_mem_lotKeys {df : DF} {r : Row} (hr : r ∈ df.rows)
    (hn : lotCell r ≠ Cell.null) : lotCell r ∈ lotKeys df :=
  mem_lotKeys.mpr ⟨List.mem_map_of_mem _ hr, hn⟩

theorem count_filter_ite {α : Type} [BEq α] [LawfulBEq α] (p : α → Bool) (a : α)
    (l : List α) : (l.filter p).count a = if p a = true then l.count a else 0 := by
  by_cases h : p a = true
  · rw [if_pos h, List.count_filter h]
  · rw [if_neg h, List.count_eq_zero]
    intro hmem
    exact h (List.mem_filter.mp hmem).2

theorem splitBuckets_of_cat (cols : List String) (bucket : List Row)
    (h : "CATEGORY" ∈ cols) :
    splitBuckets cols bucket =
      (bucket.filter catMatch, bucket.filter (fun r => !catMatch r)) := by
  cases bucket with
  | nil => simp [splitBuckets]
  | cons x l => simp [splitBuckets, h]

theorem splitBuckets_of_not_cat (cols : List String) (bucket : List Row)
    (h : "CATEGORY" ∉ cols) : splitBuckets cols bucket = ([], bucket) := by
  cases bucket with
  | nil => simp [splitBuckets]
  | cons x l => simp [splitBuckets, h]

theorem mem_splitBuckets_fst {cols : List String} {bucket : List Row} {r : Row}
    (h : r ∈ (splitBuckets cols bucket).1) : r ∈ bucket := by
  by_cases hc : "CATEGORY" ∈ cols
  · rw [splitBuckets_of_cat cols bucket hc] at h
    exact (List.mem_filter.mp h).1
  · rw [splitBuckets_of_not_cat cols bucket hc] at h
    simp at h

theorem mem_splitBuckets_snd {cols : List String} {bucket : List Row} {r : Row}
    (h : r ∈ (splitBuckets cols bucket).2) : r ∈ bucket := by
  by_cases hc : "CATEGORY" ∈ cols
  · rw [splitBuckets_of_cat cols bucket hc] at h
    exact (List.mem_filter.mp h).1
  · rw [splitBuckets_of_not_cat cols bucket hc] at h
    exact h

theorem mem_processedRows {b a : DF} {r : Row}
    (h : r ∈ (mkDelta b a).processedRows) :
    r ∈ b.rows ∧ lotCell r ∈ lotKeys b \ lotKeys a := by
  have h' := List.mem_filter.mp h
  exact ⟨h'.1, by simpa using h'.2⟩

theorem mem_inProgressRows {b a : DF} {r : Row}
    (h : r ∈ (mkDelta b a).inProgressRows) :
    r ∈ b.rows ∧ lotCell r ∈ lotKeys b ∩ lotKeys a := by
  have h' := List.mem_filter.mp h
  exact ⟨h'.1, by simpa using h'.2⟩

/-! ### Claim theorems -/

/-- C8: capturing a "before" snapshot twice fully replaces the first stored
snapshot — the store afterwards holds exactly the (critical-filtered) rows
of the second capture, independent of what was captured first. -/
theorem capture_before_replaces (d1 d2 : DF) (s : DashState) :
    capture_before_shift (some d2) (capture_before_shift (some d1) s) =
      capture_before_shift (some d2) s ∧
    (capture_before_shift (some d2) s).before_shift_data =
      some (filter_critical_lots d2) :=
  ⟨rfl, rfl⟩

/-- C5: the quantity aggregator returns 0 when the `QTY` column is absent or
the row set is empty, sums exactly the numerically coercible entries, and
prepending a row with a non-numeric quantity leaves the sum unchanged
(excluded, not treated as zero and not an error). -/
theorem safe_qty_sum_spec (df : DF) (row : Row) :
    ("QTY" ∉ df.cols ∨ df.rows = [] → safe_qty_sum df = 0) ∧
    ("QTY" ∈ df.cols →
      safe_qty_sum df =
        (df.rows.filterMap (fun r => toNumeric (rowGet r "QTY"))).sum) ∧
    ("QTY" ∈ df.cols → toNumeric (rowGet row "QTY") = none →
      safe_qty_sum ⟨df.cols, row :: df.rows⟩ = safe_qty_sum df) := by
  refine ⟨?_, ?_, ?_⟩
  · rintro (h | h) <;> simp [safe_qty_sum, h]
  · intro h
    cases hr : df.rows with
    | nil => simp [safe_qty_sum, hr]
    | cons x l => simp [safe_qty_sum, h, hr]
  · intro h hnone
    cases hr : df.rows with
    | nil => simp [safe_qty_sum, h, hr, List.filterMap_cons, hnone]
    | cons x l => simp [safe_qty_sum, h, hr, List.filterMap_cons, hnone]

/-- C5 witness: the empty, column-less and mixed `"10"`/`"abc"`/`5` cases. -/
theorem safe_qty_sum_spec_witness :
    safe_qty_sum ⟨["QTY"], []⟩ = 0 ∧
    safe_qty_sum ⟨["LOT NUMBER"], [[("LOT NUMBER", Cell.str "X")]]⟩ = 0 ∧
    safe_qty_sum ⟨["QTY"],
      [[("QTY", Cell.str "10")], [("QTY", Cell.str "abc")], [("QTY", Cell.num 5)]]⟩ =
      ([[("QTY", Cell.str "10")], [("QTY", Cell.str "abc")],
        [("QTY", Cell.num 5)]].filterMap (fun r => toNumeric (rowGet r "QTY"))).sum ∧
    safe_qty_sum ⟨["QTY"],
      [[("QTY", Cell.str "10")], [("QTY", Cell.str "abc")], [("QTY", Cell.num 5)]]⟩ = 15 ∧
    safe_qty_sum ⟨["QTY"], [[("QTY", Cell.str "abc")], [("QTY", Cell.str "10")],
      [("QTY", Cell.num 5)]]⟩ =
      safe_qty_sum ⟨["QTY"], [[("QTY", Cell.str "10")], [("QTY", Cell.num 5)]]⟩ :=
  ⟨(safe_qty_sum_spec ⟨["QTY"], []⟩ []).1 (Or.inr rfl),
   (safe_qty_sum_spec ⟨["LOT NUMBER"], [[("LOT NUMBER", Cell.str "X")]]⟩ []).1
     (Or.inl (by decide)),
   (safe_qty_sum_spec ⟨["QTY"],
     [[("QTY", Cell.str "10")], [("QTY", Cell.str "abc")], [("QTY", Cell.num 5)]]⟩ []).2.1
     (by decide),
   by decide,
   (safe_qty_sum_spec ⟨["QTY"], [[("QTY", Cell.str "10")], [("QTY", Cell.num 5)]]⟩
     [("QTY", Cell.str "abc")]).2.2 (by decide) (by decide)⟩

/-- C6: the analyzer fails with `IncompleteSnapshots` exactly when a snapshot
is absent, with `MissingKeyColumn` exactly when a present snapshot lacks the
`LOT NUMBER` column, succeeds otherwise, and on every failure path the state
(including the previously computed buckets) is left unchanged. -/
theorem analyze_failure_modes (s : DashState) :
    (s.before_shift_data = none ∨ s.after_shift_data = none →
      analyze_processed_lots s.before_shift_data s.after_shift_data =
        Except.error AnalyzeError.incompleteSnapshots) ∧
    (∀ b a, s.before_shift_data = some b → s.after_shift_data = some a →
      (("LOT NUMBER" ∉ b.cols ∨ "LOT NUMBER" ∉ a.cols) →
        analyze_processed_lots s.before_shift_data s.after_shift_data =
          Except.error AnalyzeError.missingKeyColumn) ∧
      ("LOT NUMBER" ∈ b.cols → "LOT NUMBER" ∈ a.cols →
        analyze_processed_lots s.before_shift_data s.after_shift_data =
          Except.ok (mkDelta b a))) ∧
    (∀ e, analyze_processed_lots s.before_shift_data s.after_shift_data =
        Except.error e → analyzeStep s = s) := by
  refine ⟨?_, ?_, ?_⟩
  · rintro (h | h) <;>
      cases hb : s.before_shift_data <;> cases ha : s.after_shift_data <;>
      simp_all [analyze_processed_lots]
  · intro b a hb ha
    constructor
    · rintro (h | h) <;> rw [hb, ha] <;>
        simp [analyze_processed_lots, h]
    · intro h1 h2
      rw [hb, ha]
      simp [analyze_processed_lots, h1, h2]
  · intro e he
    simp [analyzeStep, he]

/-- C6 witness: a missing snapshot and a missing key column each produce
their reported condition and leave the state untouched. -/
theorem analyze_failure_modes_witness :
    analyze_processed_lots (none : Option DF) (some ⟨["LOT NUMBER"], []⟩) =
      Except.error AnalyzeError.incompleteSnapshots ∧
    analyzeStep ⟨none, some ⟨["LOT NUMBER"], []⟩, none⟩ =
      ⟨none, some ⟨["LOT NUMBER"], []⟩, none⟩ ∧
    analyze_processed_lots (some ⟨["OPERATION"], []⟩) (some ⟨["LOT NUMBER"], []⟩) =
      Except.error AnalyzeError.missingKeyColumn ∧
    analyzeStep ⟨some ⟨["OPERATION"], []⟩, some ⟨["LOT NUMBER"], []⟩, none⟩ =
      ⟨some ⟨["OPERATION"], []⟩, some ⟨["LOT NUMBER"], []⟩, none⟩ :=
  ⟨(analyze_failure_modes ⟨none, some ⟨["LOT NUMBER"], []⟩, none⟩).1 (Or.inl rfl),
   (analyze_failure_modes ⟨none, some ⟨["LOT NUMBER"], []⟩, none⟩).2.2 _
     ((analyze_failure_modes ⟨none, some ⟨["LOT NUMBER"], []⟩, none⟩).1 (Or.inl rfl)),
   (analyze_failure_modes ⟨some ⟨["OPERATION"], []⟩, some ⟨["LOT NUMBER"], []⟩, none⟩).2.1
     _ _ rfl rfl |>.1 (Or.inl (by decide)),
   (analyze_failure_modes ⟨some ⟨["OPERATION"], []⟩, some ⟨["LOT NUMBER"], []⟩, none⟩).2.2 _
     ((analyze_failure_modes ⟨some ⟨["OPERATION"], []⟩, some ⟨["LOT NUMBER"], []⟩,
       none⟩).2.1 _ _ rfl rfl |>.1 (Or.inl (by decide)))⟩

theorem console_validate_length {expected : Nat} {team : List String}
    {idxs : List Nat} {sel : List String}
    (h : console_validate expected team idxs = some sel) :
    sel.length = expected := by
  unfold console_validate at h
  by_cases h1 : idxs.length < expected
  · simp [h1] at h
  · by_cases h2 : expected < idxs.length
    · simp [h1, h2] at h
    · by_cases h3 : idxs.all (fun i => i < team.length)
      · simp [h1, h2, h3] at h
        rw [← h]
        simp
        omega
      · simp [h1, h2, h3] at h

/-- C9: in the attendance flow, with the team below full strength, a
submission with the wrong number of selected absentees is rejected with the
specific correction message (and no records are produced); the console
prompt loop only ever accepts a selection of exactly the required size; and
an accepted submission writes exactly one (date, member, shift, status)
record per distinct member. -/
theorem attendance_validation (teamSize numPresent : Nat)
    (team absentSel : List String) (date shift : String)
    (h : numPresent < teamSize) :
    (absentSel.length ≠ teamSize - numPresent →
      submit_attendance teamSize numPresent team absentSel date shift =
        Except.error ("Please select exactly " ++ toString (teamSize - numPresent) ++
          " absent member(s). You selected " ++ toString absentSel.length ++ ".")) ∧
    (absentSel.length = teamSize - numPresent →
      submit_attendance teamSize numPresent team absentSel date shift =
        Except.ok (record_attendance date shift
          (team.filter (fun m => m ∉ absentSel)) absentSel)) ∧
    ((record_attendance date shift (team.filter (fun m => m ∉ absentSel))
        absentSel).map AttendanceRecord.member) =
      ((team.filter (fun m => m ∉ absentSel)) ++ absentSel).dedup ∧
    (∀ rec ∈ record_attendance date shift (team.filter (fun m => m ∉ absentSel))
        absentSel, rec.date = date ∧ rec.shift = shift ∧
        (rec.status = "Present" ∨ rec.status = "Absent")) ∧
    (∀ attempts sel,
      console_select_absent (teamSize - numPresent) team attempts = some sel →
      sel.length = teamSize - numPresent) := by
  refine ⟨?_, ?_, ?_, ?_, ?_⟩
  · intro hlen
    simp [submit_attendance, h, hlen]
  · intro hlen
    simp [submit_attendance, hlen]
  · simp only [record_attendance, List.map_map]
    exact List.map_id'' (fun x => rfl) _
  · intro rec hrec
    obtain ⟨m, _, hEq⟩ := List.mem_map.mp hrec
    subst hEq
    refine ⟨rfl, rfl, ?_⟩
    by_cases hp : m ∈ team.filter (fun x => x ∉ absentSel)
    · exact Or.inl (if_pos hp)
    · exact Or.inr (if_neg hp)
  · intro attempts
    induction attempts with
    | nil => intro sel hsel; simp [console_select_absent] at hsel
    | cons attempt rest ih =>
      intro sel hsel
      unfold console_select_absent at hsel
      cases hv : console_validate (teamSize - numPresent) team attempt with
      | some s =>
        rw [hv] at hsel
        cases hsel
        exact console_validate_length hv
      | none =>
        rw [hv] at hsel
        exact ih sel hsel

/-- C9 witness: with a team of 3 and 2 present, selecting two absentees is
rejected with the correction message; selecting exactly one commits one
record per member. -/
theorem attendance_validation_witness :
    submit_attendance 3 2 ["ann", "bea", "cal"] ["ann", "bea"] "2026-01-01" "Shift A" =
      Except.error "Please select exactly 1 absent member(s). You selected 2." ∧
    submit_attendance 3 2 ["ann", "bea", "cal"] ["ann"] "2026-01-01" "Shift A" =
      Except.ok (record_attendance "2026-01-01" "Shift A"
        (["ann", "bea", "cal"].filter (fun m => m ∉ ["ann"])) ["ann"]) ∧
    console_select_absent 1 ["ann", "bea", "cal"] [[0, 1], [], [5], [2]] = some ["cal"] ∧
    record_attendance "2026-01-01" "Shift A" ["bea", "cal"] ["ann"] =
      [⟨"2026-01-01", "bea", "Shift A", "Present"⟩,
       ⟨"2026-01-01", "cal", "Shift A", "Present"⟩,
       ⟨"2026-01-01", "ann", "Shift A", "Absent"⟩] :=
  ⟨(attendance_validation 3 2 ["ann", "bea", "cal"] ["ann", "bea"] "2026-01-01"
      "Shift A" (by decide)).1 (by decide),
   (attendance_validation 3 2 ["ann", "bea", "cal"] ["ann"] "2026-01-01"
      "Shift A" (by decide)).2.1 (by decide),
   by decide, by decide⟩

/-- C1: over snapshots that both carry `LOT NUMBER`, the analyzer succeeds
and computes `processed_keys = B \ A` and `in_progress_keys = B ∩ A`; the
two key sets are disjoint, their union lies inside the distinct before
keys, and a key present only in the after snapshot is in neither key set
and in no row bucket. -/
theorem analyze_key_sets (b a : DF)
    (hb : "LOT NUMBER" ∈ b.cols) (ha : "LOT NUMBER" ∈ a.cols) :
    analyze_processed_lots (some b) (some a) = Except.ok (mkDelta b a) ∧
    (mkDelta b a).processedKeys = lotKeys b \ lotKeys a ∧
    (mkDelta b a).inProgressKeys = lotKeys b ∩ lotKeys a ∧
    Disjoint (mkDelta b a).processedKeys (mkDelta b a).inProgressKeys ∧
    (mkDelta b a).processedKeys ∪ (mkDelta b a).inProgressKeys ⊆ lotKeys b ∧
    ∀ k, k ∈ lotKeys a → k ∉ lotKeys b →
      k ∉ (mkDelta b a).processedKeys ∧ k ∉ (mkDelta b a).inProgressKeys ∧
      ∀ r, r ∈ (mkDelta b a).processedRows ++ (mkDelta b a).inProgressRows ++
          (mkDelta b a).processedSplit ++ (mkDelta b a).processedRegular ++
          (mkDelta b a).inProgressSplit ++ (mkDelta b a).inProgressRegular →
        lotCell r ≠ k := by
  refine ⟨by simp [analyze_processed_lots, hb, ha], rfl, rfl,
    Finset.disjoint_sdiff_inter _ _,
    Finset.union_subset Finset.sdiff_subset Finset.inter_subset_left, ?_⟩
  intro k hka hkb
  have hP : k ∉ lotKeys b \ lotKeys a := fun hk => hkb (Finset.mem_sdiff.mp hk).1
  have hQ : k ∉ lotKeys b ∩ lotKeys a := fun hk => hkb (Finset.mem_inter.mp hk).1
  refine ⟨hP, hQ, ?_⟩
  intro r hr heq
  simp only [List.mem_append] at hr
  rcases hr with ((((h1 | h2) | h3) | h4) | h5) | h6
  · exact hP (heq ▸ (mem_processedRows h1).2)
  · exact hQ (heq ▸ (mem_inProgressRows h2).2)
  · exact hP (heq ▸ (mem_processedRows (mem_splitBuckets_fst h3)).2)
  · exact hP (heq ▸ (mem_processedRows (mem_splitBuckets_snd h4)).2)
  · exact hQ (heq ▸ (mem_inProgressRows (mem_splitBuckets_fst h5)).2)
  · exact hQ (heq ▸ (mem_inProgressRows (mem_splitBuckets_snd h6)).2)

/-- C1 witness: the spec's worked scenario (lots A, B, C before; B after). -/
theorem analyze_key_sets_witness :
    analyze_processed_lots (some specBefore) (some specAfter) =
      Except.ok (mkDelta specBefore specAfter) ∧
    (mkDelta specBefore specAfter).processedKeys = {Cell.str "A", Cell.str "C"} ∧
    (mkDelta specBefore specAfter).inProgressKeys = {Cell.str "B"} :=
  ⟨(analyze_key_sets specBefore specAfter (by decide) (by decide)).1,
   by decide, by decide⟩

/-- C10: after a successful analysis, every before-snapshot row with a
non-null lot key lands in exactly one of the two row buckets with its full
multiplicity, null-key rows land in neither, and every bucket row is a row
of the before snapshot (never of the after snapshot). -/
theorem analyze_row_partition (b a : DF)
    (hb : "LOT NUMBER" ∈ b.cols) (ha : "LOT NUMBER" ∈ a.cols) :
    analyze_processed_lots (some b) (some a) = Except.ok (mkDelta b a) ∧
    (∀ r : Row,
      (mkDelta b a).processedRows.count r + (mkDelta b a).inProgressRows.count r =
        (b.rows.filter (fun x => lotCell x ≠ Cell.null)).count r) ∧
    (∀ r ∈ (mkDelta b a).processedRows, r ∈ b.rows ∧ lotCell r ≠ Cell.null) ∧
    (∀ r ∈ (mkDelta b a).inProgressRows, r ∈ b.rows ∧ lotCell r ≠ Cell.null) := by
  refine ⟨by simp [analyze_processed_lots, hb, ha], ?_, ?_, ?_⟩
  · intro r
    show (b.rows.filter (fun x => lotCell x ∈ lotKeys b \ lotKeys a)).count r +
        (b.rows.filter (fun x => lotCell x ∈ lotKeys b ∩ lotKeys a)).count r = _
    rw [count_filter_ite, count_filter_ite, count_filter_ite]
    simp only [decide_eq_true_eq]
    by_cases hnull : lotCell r = Cell.null
    · rw [if_neg (fun hk => null_notMem_lotKeys b (hnull ▸ (Finset.mem_sdiff.mp hk).1)),
        if_neg (fun hk => null_notMem_lotKeys b (hnull ▸ (Finset.mem_inter.mp hk).1)),
        if_neg (fun hk : ¬lotCell r = Cell.null => hk hnull)]
    · by_cases hmem : r ∈ b.rows
      · have hB : lotCell r ∈ lotKeys b := lotCell_mem_lotKeys hmem hnull
        by_cases hA : lotCell r ∈ lotKeys a
        · rw [if_neg (fun hk => (Finset.mem_sdiff.mp hk).2 hA),
            if_pos (Finset.mem_inter.mpr ⟨hB, hA⟩), if_pos hnull]
          omega
        · rw [if_pos (Finset.mem_sdiff.mpr ⟨hB, hA⟩),
            if_neg (fun hk => hA (Finset.mem_inter.mp hk).2), if_pos hnull]
          omega
      · have hc : b.rows.count r = 0 := List.count_eq_zero.mpr hmem
        simp [hc]
  · intro r hr
    have h' := mem_processedRows hr
    exact ⟨h'.1, fun hn => null_notMem_lotKeys b (hn ▸ (Finset.mem_sdiff.mp h'.2).1)⟩
  · intro r hr
    have h' := mem_inProgressRows hr
    exact ⟨h'.1, fun hn => null_notMem_lotKeys b (hn ▸ (Finset.mem_inter.mp h'.2).1)⟩

/-- C10 witness: the partition at the spec's worked scenario, for the row of
lot A. -/
theorem analyze_row_partition_witness :
    (mkDelta specBefore specAfter).processedRows.count
        [("LOT NUMBER", Cell.str "A"), ("CATEGORY", Cell.str "ENGR-SPLIT LOW YIELD")] +
      (mkDelta specBefore specAfter).inProgressRows.count
        [("LOT NUMBER", Cell.str "A"), ("CATEGORY", Cell.str "ENGR-SPLIT LOW YIELD")] =
      (specBefore.rows.filter (fun x => lotCell x ≠ Cell.null)).count
        [("LOT NUMBER", Cell.str "A"), ("CATEGORY", Cell.str "ENGR-SPLIT LOW YIELD")] :=
  (analyze_row_partition specBefore specAfter (by decide) (by decide)).2.1 _

/-- C7 counterexample: a before row whose `LOT NUMBER` is the empty string
(not null) is not excluded — the empty string enters `B`, becomes a
processed key, and its row lands in the processed bucket. -/
theorem empty_lot_key_counted :
    analyze_processed_lots (some ⟨["LOT NUMBER"], [[("LOT NUMBER", Cell.str "")]]⟩)
        (some ⟨["LOT NUMBER"], []⟩) =
      Except.ok ⟨{Cell.str ""}, ∅, [[("LOT NUMBER", Cell.str "")]], [], [],
        [[("LOT NUMBER", Cell.str "")]], [], []⟩ ∧
    Cell.str "" ∈ lotKeys ⟨["LOT NUMBER"], [[("LOT NUMBER", Cell.str "")]]⟩ ∧
    Cell.str "" ∈
      (mkDelta ⟨["LOT NUMBER"], [[("LOT NUMBER", Cell.str "")]]⟩
        ⟨["LOT NUMBER"], []⟩).processedKeys :=
  ⟨by decide, by decide, by decide⟩

/-- C7 (amended): a row whose `LOT NUMBER` is null is excluded from both key
sets and never counted as processed or in-progress; only nullness (not
emptiness) is what `dropna` removes. -/
theorem null_lot_never_counted (b a : DF)
    (hb : "LOT NUMBER" ∈ b.cols) (ha : "LOT NUMBER" ∈ a.cols) :
    analyze_processed_lots (some b) (some a) = Except.ok (mkDelta b a) ∧
    Cell.null ∉ lotKeys b ∧ Cell.null ∉ lotKeys a ∧
    Cell.null ∉ (mkDelta b a).processedKeys ∧
    Cell.null ∉ (mkDelta b a).inProgressKeys ∧
    ∀ r ∈ (mkDelta b a).processedRows ++ (mkDelta b a).inProgressRows,
      lotCell r ≠ Cell.null := by
  refine ⟨by simp [analyze_processed_lots, hb, ha],
    null_notMem_lotKeys b, null_notMem_lotKeys a,
    fun hk => null_notMem_lotKeys b (Finset.mem_sdiff.mp hk).1,
    fun hk => null_notMem_lotKeys b (Finset.mem_inter.mp hk).1, ?_⟩
  intro r hr
  rcases List.mem_append.mp hr with h | h
  · exact fun hn => null_notMem_lotKeys b (hn ▸ (Finset.mem_sdiff.mp (mem_processedRows h).2).1)
  · exact fun hn => null_notMem_lotKeys b (hn ▸ (Finset.mem_inter.mp (mem_inProgressRows h).2).1)

/-- C7 amended witness: a null-key row beside a keyed row — the null key is
in no key set and its row is in no bucket. -/
theorem null_lot_never_counted_witness :
    Cell.null ∉ lotKeys ⟨["LOT NUMBER"], [[("LOT NUMBER", Cell.null)],
      [("LOT NUMBER", Cell.str "A")]]⟩ ∧
    Cell.null ∉
      (mkDelta ⟨["LOT NUMBER"], [[("LOT NUMBER", Cell.null)], [("LOT NUMBER", Cell.str "A")]]⟩
        ⟨["LOT NUMBER"], []⟩).processedKeys ∧
    (mkDelta ⟨["LOT NUMBER"], [[("LOT NUMBER", Cell.null)], [("LOT NUMBER", Cell.str "A")]]⟩
        ⟨["LOT NUMBER"], []⟩).processedRows = [[("LOT NUMBER", Cell.str "A")]] :=
  ⟨(null_lot_never_counted
      ⟨["LOT NUMBER"], [[("LOT NUMBER", Cell.null)], [("LOT NUMBER", Cell.str "A")]]⟩
      ⟨["LOT NUMBER"], []⟩ (by decide) (by decide)).2.1,
   (null_lot_never_counted
      ⟨["LOT NUMBER"], [[("LOT NUMBER", Cell.null)], [("LOT NUMBER", Cell.str "A")]]⟩
      ⟨["LOT NUMBER"], []⟩ (by decide) (by decide)).2.2.2.1,
   by decide⟩

/-- C4: each row bucket is partitioned by the split-low-yield category
predicate into a split subset and a regular subset: with a `CATEGORY`
column they are the matching and non-matching rows, without one the split
subset is empty and the regular subset is the whole bucket; in either case
the subsets are disjoint and jointly exhaust the bucket with full
multiplicity. -/
theorem analyze_category_partition (b a : DF)
    (hb : "LOT NUMBER" ∈ b.cols) (ha : "LOT NUMBER" ∈ a.cols) :
    analyze_processed_lots (some b) (some a) = Except.ok (mkDelta b a) ∧
    ("CATEGORY" ∈ b.cols →
      (mkDelta b a).processedSplit = (mkDelta b a).processedRows.filter catMatch ∧
      (mkDelta b a).processedRegular =
        (mkDelta b a).processedRows.filter (fun r => !catMatch r) ∧
      (mkDelta b a).inProgressSplit = (mkDelta b a).inProgressRows.filter catMatch ∧
      (mkDelta b a).inProgressRegular =
        (mkDelta b a).inProgressRows.filter (fun r => !catMatch r)) ∧
    ("CATEGORY" ∉ b.cols →
      (mkDelta b a).processedSplit = [] ∧
      (mkDelta b a).processedRegular = (mkDelta b a).processedRows ∧
      (mkDelta b a).inProgressSplit = [] ∧
      (mkDelta b a).inProgressRegular = (mkDelta b a).inProgressRows) ∧
    (∀ r : Row,
      (mkDelta b a).processedSplit.count r + (mkDelta b a).processedRegular.count r =
        (mkDelta b a).processedRows.count r) ∧
    (∀ r : Row,
      (mkDelta b a).inProgressSplit.count r + (mkDelta b a).inProgressRegular.count r =
        (mkDelta b a).inProgressRows.count r) ∧
    (∀ r : Row,
      ¬(r ∈ (mkDelta b a).processedSplit ∧ r ∈ (mkDelta b a).processedRegular)) ∧
    (∀ r : Row,
      ¬(r ∈ (mkDelta b a).inProgressSplit ∧ r ∈ (mkDelta b a).inProgressRegular)) := by
  have countPart : ∀ bucket : List Row, ∀ r : Row,
      (splitBuckets b.cols bucket).1.count r + (splitBuckets b.cols bucket).2.count r =
        bucket.count r := by
    intro bucket r
    by_cases hc : "CATEGORY" ∈ b.cols
    · rw [splitBuckets_of_cat b.cols bucket hc]
      show (bucket.filter catMatch).count r +
        (bucket.filter (fun x => !catMatch x)).count r = _
      rw [count_filter_ite, count_filter_ite]
      by_cases hm : catMatch r = true
      · rw [if_pos hm, if_neg (by simp [hm])]
        omega
      · rw [if_neg hm, if_pos (by simp [Bool.not_eq_true] at hm; simp [hm])]
        omega
    · rw [splitBuckets_of_not_cat b.cols bucket hc]
      simp
  have disjPart : ∀ bucket : List Row, ∀ r : Row,
      ¬(r ∈ (splitBuckets b.cols bucket).1 ∧ r ∈ (splitBuckets b.cols bucket).2) := by
    intro bucket r hr
    by_cases hc : "CATEGORY" ∈ b.cols
    · rw [splitBuckets_of_cat b.cols bucket hc] at hr
      have h1 := (List.mem_filter.mp hr.1).2
      have h2 := (List.mem_filter.mp hr.2).2
      simp [h1] at h2
    · rw [splitBuckets_of_not_cat b.cols bucket hc] at hr
      simp at hr
  refine ⟨by simp [analyze_processed_lots, hb, ha], ?_, ?_,
    countPart _, countPart _, disjPart _, disjPart _⟩
  · intro hc
    have h1 := splitBuckets_of_cat b.cols (mkDelta b a).processedRows hc
    have h2 := splitBuckets_of_cat b.cols (mkDelta b a).inProgressRows hc
    exact ⟨congrArg Prod.fst h1, congrArg Prod.snd h1,
      congrArg Prod.fst h2, congrArg Prod.snd h2⟩
  · intro hc
    have h1 := splitBuckets_of_not_cat b.cols (mkDelta b a).processedRows hc
    have h2 := splitBuckets_of_not_cat b.cols (mkDelta b a).inProgressRows hc
    exact ⟨congrArg Prod.fst h1, congrArg Prod.snd h1,
      congrArg Prod.fst h2, congrArg Prod.snd h2⟩

/-- The critical filter as claim C3 words it, for comparison with the
source embedding: keep exactly the rows whose OTD status or category
matches, and with neither filter column present return the snapshot
unfiltered.  (No summary-row exclusion step.) -/
def claimCriticalFilter (df : DF) : DF :=
  if "OTD STATUS" ∈ df.cols ∨ "CATEGORY" ∈ df.cols then
    ⟨df.cols, df.rows.filter (criticalPred df.cols)⟩
  else df

/-- C3 counterexample: a row with `Operation` "Total" and OTD status
"OVERDUE" satisfies the claimed keep-predicate, yet `filter_critical_lots`
drops it (the summary-row exclusion runs first), so the filter does not
keep exactly the OR-matching rows. -/
theorem filter_critical_lots_cex :
    filter_critical_lots
        ⟨["Operation", "OTD STATUS"],
         [[("Operation", Cell.str "Total"), ("OTD STATUS", Cell.str "OVERDUE")]]⟩ =
      ⟨["Operation", "OTD STATUS"], []⟩ ∧
    claimCriticalFilter
        ⟨["Operation", "OTD STATUS"],
         [[("Operation", Cell.str "Total"), ("OTD STATUS", Cell.str "OVERDUE")]]⟩ =
      ⟨["Operation", "OTD STATUS"],
       [[("Operation", Cell.str "Total"), ("OTD STATUS", Cell.str "OVERDUE")]]⟩ ∧
    filter_critical_lots
        ⟨["Operation", "OTD STATUS"],
         [[("Operation", Cell.str "Total"), ("OTD STATUS", Cell.str "OVERDUE")]]⟩ ≠
      claimCriticalFilter
        ⟨["Operation", "OTD STATUS"],
         [[("Operation", Cell.str "Total"), ("OTD STATUS", Cell.str "OVERDUE")]]⟩ :=
  ⟨by decide, by decide, by decide⟩

/-- C3 (amended): the critical filter keeps exactly the rows that survive
the summary-row exclusion (when an `Operation` column exists) and satisfy
the OTD-or-category OR-predicate (when at least one of those columns
exists); columns are preserved, and with none of the three columns present
the snapshot is returned unfiltered. -/
theorem filter_critical_lots_amended (df : DF) :
    (filter_critical_lots df).cols = df.cols ∧
    (∀ r : Row, r ∈ (filter_critical_lots df).rows ↔
      r ∈ df.rows ∧ ("Operation" ∈ df.cols → opExclude r = false) ∧
        (("OTD STATUS" ∈ df.cols ∨ "CATEGORY" ∈ df.cols) →
          criticalPred df.cols r = true)) ∧
    ("Operation" ∉ df.cols → "OTD STATUS" ∉ df.cols → "CATEGORY" ∉ df.cols →
      filter_critical_lots df = df) := by
  by_cases hlen : df.rows.length = 0
  · have hnil : df.rows = [] := List.length_eq_zero.mp hlen
    refine ⟨by simp [filter_critical_lots, hlen], ?_, ?_⟩
    · intro r
      simp [filter_critical_lots, hlen, hnil]
    · intro _ _ _
      simp [filter_critical_lots, hlen]
  · by_cases hop : "Operation" ∈ df.cols
    · by_cases hfc : "OTD STATUS" ∈ df.cols ∨ "CATEGORY" ∈ df.cols
      · refine ⟨by simp [filter_critical_lots, hlen, hfc], ?_, fun h => absurd hop h⟩
        intro r
        simp [filter_critical_lots, hlen, hop, hfc, List.mem_filter, and_assoc]
        tauto
      · refine ⟨by simp [filter_critical_lots, hlen, hfc], ?_, fun h => absurd hop h⟩
        intro r
        simp [filter_critical_lots, hlen, hop, hfc, List.mem_filter]
    · by_cases hfc : "OTD STATUS" ∈ df.cols ∨ "CATEGORY" ∈ df.cols
      · refine ⟨by simp [filter_critical_lots, hlen, hfc], ?_, ?_⟩
        · intro r
          simp [filter_critical_lots, hlen, hop, hfc, List.mem_filter]
        · intro _ h1 h2
          exact absurd hfc (by simp [h1, h2])
      · refine ⟨by simp [filter_critical_lots, hlen, hfc], ?_, ?_⟩
        · intro r
          simp [filter_critical_lots, hlen, hop, hfc]
        · intro _ _ _
          simp [filter_critical_lots, hlen, hop, hfc]

/-- C3 amended witness: a "3 NEAR DUE" row passes the critical filter while
an "ON TIME" row with no critical category does not. -/
theorem filter_critical_lots_amended_witness :
    [("OTD STATUS", Cell.str "3 NEAR DUE")] ∈
      (filter_critical_lots ⟨["OTD STATUS"],
        [[("OTD STATUS", Cell.str "3 NEAR DUE")],
         [("OTD STATUS", Cell.str "ON TIME")]]⟩).rows ∧
    [("OTD STATUS", Cell.str "ON TIME")] ∉
      (filter_critical_lots ⟨["OTD STATUS"],
        [[("OTD STATUS", Cell.str "3 NEAR DUE")],
         [("OTD STATUS", Cell.str "ON TIME")]]⟩).rows :=
  ⟨((filter_critical_lots_amended ⟨["OTD STATUS"],
      [[("OTD STATUS", Cell.str "3 NEAR DUE")],
       [("OTD STATUS", Cell.str "ON TIME")]]⟩).2.1 _).mpr (by decide),
   by decide⟩

/-- C4 witness: in the spec's worked scenario the processed bucket splits
into the lot-A row (split low yield) and the lot-C row (regular). -/
theorem analyze_category_partition_witness :
    (mkDelta specBefore specAfter).processedSplit =
      (mkDelta specBefore specAfter).processedRows.filter catMatch ∧
    (mkDelta specBefore specAfter).processedSplit =
      [[("LOT NUMBER", Cell.str "A"), ("CATEGORY", Cell.str "ENGR-SPLIT LOW YIELD")]] ∧
    (mkDelta specBefore specAfter).processedRegular =
      [[("LOT NUMBER", Cell.str "C"), ("CATEGORY", Cell.str "NORMAL")]] :=
  ⟨((analyze_category_partition specBefore specAfter (by decide) (by decide)).2.1
      (by decide)).1,
   by decide, by decide⟩

/-- The processing rate as claim C2 words it, for comparison with the
source embedding: processed key count over the count of distinct before
lots, same formatting. -/
def claimProcessingRate (r : DeltaResult) (before : DF) : String :=
  processingRateStr r.processedKeys.card (lotKeys before).card

/-- A before snapshot with duplicate rows for lot A. -/
def dupBefore : DF :=
  ⟨["LOT NUMBER"],
   [[("LOT NUMBER", Cell.str "A")], [("LOT NUMBER", Cell.str "A")],
    [("LOT NUMBER", Cell.str "B")]]⟩

/-- The matching after snapshot: lot B is still present. -/
def dupAfter : DF := ⟨["LOT NUMBER"], [[("LOT NUMBER", Cell.str "B")]]⟩

/-- The dashboard state after analysing the duplicate-row snapshots. -/
def dupState : DashState := analyzeStep ⟨some dupBefore, some dupAfter, none⟩

/-- C2 counterexample: with duplicate rows for a lot, the summary divides
the processed ROW count by the before ROW count (2/3 → "66.7%"), not the
processed KEY count by the distinct-lot count (1/2 → "50.0%") as claimed. -/
theorem summary_rate_cex :
    ((create_summary_table dupState).getD []).lookup "Processing Rate (%)" =
      some "66.7%" ∧
    (mkDelta dupBefore dupAfter).processedKeys.card = 1 ∧
    (lotKeys dupBefore).card = 2 ∧
    claimProcessingRate (mkDelta dupBefore dupAfter) dupBefore = "50.0%" ∧
    ((create_summary_table dupState).getD []).lookup "Processing Rate (%)" ≠
      some (claimProcessingRate (mkDelta dupBefore dupAfter) dupBefore) :=
  ⟨by decide, by decide, by decide, by decide, by decide⟩

/-- C2 (amended): the summary's processing rate is the processed-bucket ROW
count over the before-snapshot ROW count, times 100, formatted to one
decimal with a "%" suffix; a zero denominator yields exactly "0%" (no
division is attempted), and 1 processed row out of 4 yields "25.0%". -/
theorem create_summary_table_amended (s : DashState) (r : DeltaResult)
    (h : s.result = some r) :
    create_summary_table s = some [
      ("Total Lots (Start of Shift)", toString (totalRowsOf s)),
      ("Processed Regular Lots", toString r.processedRegular.length),
      ("Processed Split Low Yield Lots", toString r.processedSplit.length),
      ("In Progress Regular Lots", toString r.inProgressRegular.length),
      ("In Progress Split Low Yield Lots", toString r.inProgressSplit.length),
      ("Processing Rate (%)",
        processingRateStr r.processedRows.length (totalRowsOf s))] ∧
    (totalRowsOf s = 0 →
      processingRateStr r.processedRows.length (totalRowsOf s) = "0%") ∧
    processingRateStr 1 4 = "25.0%" := by
  refine ⟨by simp [create_summary_table, h], ?_, by decide⟩
  intro h0
  rw [h0]
  rfl

/-- A before snapshot of four singleton lots. -/
def rateBefore : DF :=
  ⟨["LOT NUMBER"],
   [[("LOT NUMBER", Cell.str "A")], [("LOT NUMBER", Cell.str "B")],
    [("LOT NUMBER", Cell.str "C")], [("LOT NUMBER", Cell.str "D")]]⟩

/-- The matching after snapshot: three of the four lots remain. -/
def rateAfter : DF :=
  ⟨["LOT NUMBER"],
   [[("LOT NUMBER", Cell.str "B")], [("LOT NUMBER", Cell.str "C")],
    [("LOT NUMBER", Cell.str "D")]]⟩

/-- The dashboard state after analysing the four-lot snapshots. -/
def rateState : DashState := analyzeStep ⟨some rateBefore, some rateAfter, none⟩

/-- C2 amended witness: 1 processed row out of 4 yields a "25.0%" rate. -/
theorem create_summary_table_amended_witness :
    create_summary_table rateState = some [
      ("Total Lots (Start of Shift)", toString (totalRowsOf rateState)),
      ("Processed Regular Lots",
        toString (mkDelta rateBefore rateAfter).processedRegular.length),
      ("Processed Split Low Yield Lots",
        toString (mkDelta rateBefore rateAfter).processedSplit.length),
      ("In Progress Regular Lots",
        toString (mkDelta rateBefore rateAfter).inProgressRegular.length),
      ("In Progress Split Low Yield Lots",
        toString (mkDelta rateBefore rateAfter).inProgressSplit.length),
      ("Processing Rate (%)",
        processingRateStr (mkDelta rateBefore rateAfter).processedRows.length
          (totalRowsOf rateState))] ∧
    processingRateStr (mkDelta rateBefore rateAfter).processedRows.length
      (totalRowsOf rateState) = "25.0%" :=
  ⟨(create_summary_table_amended rateState (mkDelta rateBefore rateAfter)
      (by decide)).1,
   by decide⟩

end PTEO
